import Mathlib

/-
Verification of the QiProg reference implementation (libqiprog).

The definitions below are a shallow embedding of the C sources:
  * qiprog_internal.h : the little-endian wire codec (le16_to_h, le32_to_h,
    h_to_le16, h_to_le32);
  * qiprog_usb_device.c : the device-side translator (control-request
    handler fragments, qiprog_change_device, the task ring,
    qiprog_usb_dev_init, qiprog_handle_events);
  * usb_master.c : the host-side USB driver (get_capabilities unpacking,
    set_address, set_erase_size, the bulk read path).

Machine integers are modelled as Nat with explicit reductions mod 2^8,
2^16, 2^32 exactly where the C performs (or implicitly applies) such a
conversion.  Byte buffers are lists of Nat.  Fallible transport calls are
modelled by explicit success flags; bulk data arriving from the device is
modelled by a byte-per-address function `chip`, mirroring a transport whose
packets deliver the device stream in address order.
-/

/-! Error codes from qiprog.h (enum qiprog_error). -/

def QIPROG_SUCCESS : Int := 0

def QIPROG_ERR : Int := -1

def QIPROG_ERR_MALLOC : Int := -2

def QIPROG_ERR_ARG : Int := -3

def QIPROG_ERR_TIMEOUT : Int := -4

/-- Modelled from the spec: `QIPROG_ERR_LARGE_ARG` is returned by
`set_erase_size` in usb_master.c but its defining header revision is not
present under src/ (qiprog.h there predates it).  The spec calls it the
"too-large argument" error, distinct from the argument error `ERR_ARG`;
it is modelled as the next free negative code. -/
def QIPROG_ERR_LARGE_ARG : Int := -5

/-! ## Wire codec (qiprog_internal.h)

Bytes are Nats < 256; multi-byte values are Nats reduced where the C
converts.  `h_to_le32` is embedded with its actual C signature: the value
parameter is declared `uint16_t val32`, so the argument is converted to
16 bits on entry. -/

/-- le16_to_h from qiprog_internal.h: `(b[1] << 8) | (b[0] << 0)`. -/
def le16_to_h (b : List Nat) : Nat :=
  (b.getD 1 0) <<< 8 ||| (b.getD 0 0)

/-- le32_to_h from qiprog_internal.h:
`(b[3] << 24) | (b[2] << 16) | (b[1] << 8) | (b[0] << 0)`. -/
def le32_to_h (b : List Nat) : Nat :=
  (b.getD 3 0) <<< 24 ||| (b.getD 2 0) <<< 16 ||| (b.getD 1 0) <<< 8 ||| (b.getD 0 0)

/-- h_to_le16 from qiprog_internal.h: stores the two bytes of a uint16,
least significant first. -/
def h_to_le16 (val16 : Nat) : List Nat :=
  [(val16 >>> 0) % 256, (val16 >>> 8) % 256]

/-- h_to_le32 from qiprog_internal.h.  The C parameter is declared
`uint16_t val32` (not uint32_t), so the argument is truncated to 16 bits
before any byte is produced; bytes 2 and 3 are consequently always 0. -/
def h_to_le32 (val32 : Nat) : List Nat :=
  let v := val32 % 65536
  [(v >>> 0) % 256, (v >>> 8) % 256, (v >>> 16) % 256, (v >>> 24) % 256]

/-! ## Capabilities (qiprog.h struct qiprog_capabilities) -/

structure qiprog_capabilities where
  instruction_set : Nat
  bus_master : Nat
  max_direct_data : Nat
  voltages : List Nat
deriving DecidableEq

/-- Overwrite `buf` starting at index `off` with the bytes `bs`
(models sequential byte stores into a C buffer). -/
def writeBytes : List Nat → Nat → List Nat → List Nat
  | buf, _, [] => buf
  | buf, off, b :: rest => writeBytes (buf.set off b) (off + 1) rest

/-- Device-side packing of capabilities: the QIPROG_GET_CAPABILITIES case
of qiprog_handle_control_request (qiprog_usb_device.c).  Field offsets are
exactly those of the source: instruction_set at 0, bus_master at 2,
max_direct_data at 4, voltages at 10 + 2*i.  The reply is the first 0x20
bytes of ctrl_buf. -/
def qiprog_pack_capabilities_dev (caps : qiprog_capabilities)
    (ctrl_buf : List Nat) : List Nat :=
  let b := writeBytes ctrl_buf 0 (h_to_le16 caps.instruction_set)
  let b := writeBytes b 2 (h_to_le32 caps.bus_master)
  let b := writeBytes b 4 (h_to_le32 caps.max_direct_data)
  (List.range 10).foldl
    (fun b i => writeBytes b (10 + 2 * i) (h_to_le16 (caps.voltages.getD i 0))) b

/-- Host-side unpacking of the 32-byte capabilities reply: get_capabilities
in usb_master.c.  Offsets as in the source: instruction_set at 0,
bus_master at 2, max_direct_data at 6, voltages at 10 + 2*i. -/
def get_capabilities_unpack (buf : List Nat) : qiprog_capabilities :=
  { instruction_set := le16_to_h (buf.drop 0)
    bus_master := le32_to_h (buf.drop 2)
    max_direct_data := le32_to_h (buf.drop 6)
    voltages := (List.range 10).map (fun i => le16_to_h (buf.drop (10 + 2 * i))) }

/-- The capability bytes of spec §8 scenario 1:
instruction_set 1, bus_master 0x0F, max_direct_data 0x40,
voltages [1280, 800, 0, ...], laid out per §4.1 (max_direct_data at
offset 6). -/
def capsBytes : List Nat :=
  [0x01, 0x00, 0x0F, 0x00, 0x00, 0x00, 0x40, 0x00, 0x00, 0x00,
   0x00, 0x05, 0x20, 0x03] ++ List.replicate 18 0

/-! ## Device translator: change_device (qiprog_usb_device.c) -/

/-- Lifecycle callbacks observed while the translator runs.  Devices are
identified by a Nat; `opened i` records a call of device i's dev_open. -/
inductive DevEvent
  | opened (id : Nat)
  | closed (id : Nat)
deriving DecidableEq

structure TranslatorDevState where
  qi_dev : Option Nat
deriving DecidableEq

/-- qiprog_change_device from qiprog_usb_device.c.  The C body is exactly:
a `FIXME: close old driver` comment, the assignment `qi_dev = new_dev`,
and the call `qi_dev->drv->dev_open(qi_dev)`.  No close callback is
invoked (struct qiprog_driver in qiprog_internal.h has no dev_close
member at all).  The returned list is the trace of lifecycle callbacks
the call performs. -/
def qiprog_change_device (_s : TranslatorDevState) (new_dev : Nat) :
    TranslatorDevState × List DevEvent :=
  ({ qi_dev := some new_dev }, [DevEvent.opened new_dev])

/-! ## Host driver state (usb_master.c)

`qiprog_address` mirrors the addr field of struct qiprog_device (start,
end, pread, pwrite, all uint32).  `usb_master_priv` keeps the endpoint
sizes and the residual buffer; the C pair (buf, buflen) is modelled by the
list of the buflen valid bytes. -/

/-- 32-bit unsigned reduction. -/
def u32 (x : Nat) : Nat := x % 4294967296

/-- uint32 subtraction `a - b` as the C computes it (wrapping). -/
def u32sub (a b : Nat) : Nat := u32 (a + 4294967296 - u32 b)

structure qiprog_address where
  start : Nat
  end_ : Nat
  pread : Nat
  pwrite : Nat
deriving DecidableEq

structure usb_master_priv where
  ep_size_in : Nat
  ep_size_out : Nat
  buf : List Nat
deriving DecidableEq

structure Device where
  addr : qiprog_address
  priv : usb_master_priv
deriving DecidableEq

/-- set_address from usb_master.c.  `ok` is the outcome of the
libusb control transfer.  `priv->buflen = 0` happens before the transfer
is attempted; on success the cursor is reset:
`addr.end = end; addr.pread = addr.pwrite = addr.start = start`. -/
def set_address (dev : Device) (ok : Bool) (s e : Nat) : Int × Device :=
  let dev0 : Device := { dev with priv := { dev.priv with buf := [] } }
  if ok = false then (QIPROG_ERR, dev0)
  else (QIPROG_SUCCESS,
    { dev0 with addr := { start := s, end_ := e, pread := s, pwrite := s } })

/-- The first step of read (usb_master.c, `read`): issue a set_address
round trip when `pread != where || end < (where + n)` (uint32 arithmetic),
requesting the window (where, where + n).  Returns the device state after
the step together with the list of issued set_address requests.  The
control transfer is modelled as succeeding. -/
def read_start (dev : Device) (w n : Nat) : Device × List (Nat × Nat) :=
  if dev.addr.pread ≠ w ∨ dev.addr.end_ < u32 (w + n) then
    ((set_address dev true w (u32 (w + n))).2, [(w, u32 (w + n))])
  else (dev, [])

structure ReadCore where
  err : Int
  delivered : List Nat
  dev : Device
  bulkReads : Nat
deriving DecidableEq

/-- The body of read (usb_master.c) after the set_address step, line by
line: the `n > range + buflen` argument check, the residual drain with its
early success return, the endpoint-aligned asynchronous transfers, and the
leftover packet that refills the residual buffer.  `chip a` is the byte the
device streams for address `a`: bulk packets deliver the device stream in
address order, and the leftover synchronous bulk-in returns
`min (ep_size_in) (window bytes remaining)` bytes, as a cooperative device
does.  `bulkReads` counts bulk transfers submitted. -/
def read_core (chip : Nat → Nat) (dev : Device) (n : Nat) : ReadCore :=
  let range := u32sub (dev.addr.end_ + 1) dev.addr.pread
  if n > range + dev.priv.buf.length then
    { err := QIPROG_ERR_ARG, delivered := [], dev := dev, bulkReads := 0 }
  else
    let copysz := min n dev.priv.buf.length
    let drained := dev.priv.buf.take copysz
    let n1 := n - copysz
    let buf1 := dev.priv.buf.drop copysz
    let dev1 : Device := { dev with priv := { dev.priv with buf := buf1 } }
    if copysz ≠ 0 ∧ buf1 ≠ [] then
      { err := QIPROG_SUCCESS, delivered := drained, dev := dev1, bulkReads := 0 }
    else
      let ep := dev1.priv.ep_size_in
      let range2 := (n1 / ep) * ep
      let asyncBytes := (List.range range2).map (fun i => chip (u32 (dev1.addr.pread + i)))
      let dev2 : Device :=
        { dev1 with addr := { dev1.addr with pread := u32 (dev1.addr.pread + range2) } }
      let left := n1 % ep
      if left = 0 then
        { err := QIPROG_SUCCESS, delivered := drained ++ asyncBytes, dev := dev2,
          bulkReads := range2 / ep }
      else
        let len := min ep (u32sub (dev2.addr.end_ + 1) dev2.addr.pread)
        if len < left then
          { err := QIPROG_ERR, delivered := drained ++ asyncBytes, dev := dev2,
            bulkReads := range2 / ep + 1 }
        else
          let pkt := (List.range len).map (fun i => chip (u32 (dev2.addr.pread + i)))
          let dev3 : Device :=
            { dev2 with
              addr := { dev2.addr with pread := u32 (dev2.addr.pread + len) },
              priv := { dev2.priv with buf := pkt.drop left } }
          { err := QIPROG_SUCCESS, delivered := drained ++ asyncBytes ++ pkt.take left,
            dev := dev3, bulkReads := range2 / ep + 1 }

structure ReadResult where
  err : Int
  delivered : List Nat
  dev : Device
  saCalls : List (Nat × Nat)
  bulkReads : Nat
deriving DecidableEq

/-- read from usb_master.c (the driver read member backing read_bulk):
the set_address step followed by the core body.  `saCalls` records the
set_address control transfers issued by this call. -/
def read (chip : Nat → Nat) (dev : Device) (w n : Nat) : ReadResult :=
  let c := read_core chip (read_start dev w n).1 n
  { err := c.err, delivered := c.delivered, dev := c.dev,
    saCalls := (read_start dev w n).2, bulkReads := c.bulkReads }

/-- The per-entry payload loop of set_erase_size (usb_master.c):
`buf[i*5] = (uint8_t)types[i]; h_to_le32(sizes[i], buf + i*5 + 1)` for
i < num_sizes. -/
def erase_payload (types sizes : List Nat) : Nat → List Nat
  | 0 => []
  | i + 1 => erase_payload types sizes i
      ++ (types.getD i 0 % 256) :: h_to_le32 (sizes.getD i 0)

/-- set_erase_size from usb_master.c (argument checks and control
transfer): `num_sizes == 0` fails with QIPROG_ERR_ARG, `num_sizes > 12`
with QIPROG_ERR_LARGE_ARG, both before any transfer; otherwise the
control transfer of wLength `num_sizes * 5` is issued (second component:
the payload handed to the transport, none when no transfer happens). -/
def set_erase_size (types sizes : List Nat) (num_sizes : Nat) :
    Int × Option (List Nat) :=
  if num_sizes = 0 then (QIPROG_ERR_ARG, none)
  else if num_sizes > 12 then (QIPROG_ERR_LARGE_ARG, none)
  else (QIPROG_SUCCESS, some (erase_payload types sizes num_sizes))

/-! ## Device-side module state (qiprog_usb_device.c)

The module-level statics of qiprog_usb_device.c: the packet callbacks and
packet sizes installed by qiprog_usb_dev_init (the callbacks are modelled
by their presence), the bulk buffer pointer (modelled by whether it is
non-NULL), the task ring, and the active device qi_dev (its address
cursor; none models the NULL pointer). -/

inductive TaskStatus
  | IDLE
  | READY_SEND
deriving DecidableEq

structure qiprog_task where
  status : TaskStatus
  buf : List Nat
  len : Nat
deriving DecidableEq

/-- Default used for out-of-range ring indexing (never reached: the ring
has exactly 4 entries and indices are taken mod 4). -/
def dTask : qiprog_task := { status := TaskStatus.IDLE, buf := [], len := 0 }

structure qiprog_task_list where
  tasks : List qiprog_task
  task_start : Nat
deriving DecidableEq

structure UsbDevModule where
  qi_read_packet : Bool
  qi_write_packet : Bool
  qi_max_rx_packet : Nat
  qi_max_tx_packet : Nat
  qi_bulk_buf : Bool
  task_list : qiprog_task_list
  qi_dev : Option qiprog_address
deriving DecidableEq

/-- The static initializers of qiprog_usb_device.c: NULL callbacks, zero
packet sizes, NULL bulk buffer, four IDLE tasks, task_start 0, NULL
qi_dev. -/
def init_module_state : UsbDevModule :=
  { qi_read_packet := false
    qi_write_packet := false
    qi_max_rx_packet := 0
    qi_max_tx_packet := 0
    qi_bulk_buf := false
    task_list := { tasks := List.replicate 4 dTask, task_start := 0 }
    qi_dev := none }

/-- qiprog_usb_dev_init from qiprog_usb_device.c: rejects (QIPROG_ERR_ARG,
state untouched) when either callback is NULL, either packet size is 0, or
bulk_buf is NULL; otherwise installs everything and carves the bulk buffer
into the four task buffers (contents irrelevant at this point, modelled
empty). -/
def qiprog_usb_dev_init (s : UsbDevModule) (send_packet recv_packet : Bool)
    (max_rx_packet max_tx_packet : Nat) (bulk_buf : Bool) : Int × UsbDevModule :=
  if send_packet = false ∨ recv_packet = false ∨ max_rx_packet = 0 ∨
      max_tx_packet = 0 ∨ bulk_buf = false then
    (QIPROG_ERR_ARG, s)
  else
    (QIPROG_SUCCESS,
      { s with
        qi_read_packet := recv_packet
        qi_write_packet := send_packet
        qi_max_rx_packet := max_rx_packet
        qi_max_tx_packet := max_tx_packet
        qi_bulk_buf := true
        task_list := { s.task_list with
          tasks := s.task_list.tasks.map (fun t => { t with buf := [] }) } })

/-- get_free_task from qiprog_usb_device.c: scan the four slots starting
at task_start, return the index of the first IDLE one. -/
def get_free_task_idx (tl : qiprog_task_list) : Option Nat :=
  ((List.range 4).map (fun i => (i + tl.task_start) % 4)).find?
    (fun dx => decide ((tl.tasks.getD dx dTask).status = TaskStatus.IDLE))

/-- handle_send from qiprog_usb_device.c: if the head task is READY_SEND,
call qi_write_packet; when the transport reports the full length sent
(`sendOk`), idle_task advances the ring head and idles the task. -/
def handle_send (s : UsbDevModule) (sendOk : Bool) : UsbDevModule :=
  let ts := s.task_list
  let task := ts.tasks.getD ts.task_start dTask
  if task.status = TaskStatus.READY_SEND ∧ sendOk = true then
    { s with task_list :=
      { tasks := ts.tasks.set ts.task_start
          { task with status := TaskStatus.IDLE, len := 0 }
        task_start := (ts.task_start + 1) % 4 } }
  else s

/-- qiprog_handle_events from qiprog_usb_device.c, one tick: return
immediately if qi_bulk_buf is NULL; service the head send task; then
`start = qi_dev->addr.pread; end = qi_dev->addr.end;
if (start == end) return; len = end - start + 1; if (len == 0) return;`
acquire a free task or return; fill it with
`min(len, qi_max_tx_packet)` bytes read from the internal driver at
`start` and mark it READY_SEND.  (The C dereferences qi_dev without a
NULL check; the none branch below models that no defined behavior is
claimed there.) -/
def qiprog_handle_events (s : UsbDevModule) (chip : Nat → Nat) (sendOk : Bool) :
    UsbDevModule :=
  if s.qi_bulk_buf = false then s
  else
    let s1 := handle_send s sendOk
    match s1.qi_dev with
    | none => s1
    | some a =>
      if a.pread = a.end_ then s1
      else
        let len := u32sub (a.end_ + 1) a.pread
        if len = 0 then s1
        else
          match get_free_task_idx s1.task_list with
          | none => s1
          | some dx =>
            let tlen := min len s1.qi_max_tx_packet
            let tbuf := (List.range tlen).map (fun i => chip (u32 (a.pread + i)))
            { s1 with task_list := { s1.task_list with
                tasks := s1.task_list.tasks.set dx
                  { status := TaskStatus.READY_SEND, buf := tbuf, len := tlen } } }

/-! ## Concrete states used by the scenarios -/

/-- Mock chip of spec §8 scenario 3: the byte at address a is `a & 0xFF`. -/
def chipMock : Nat → Nat := fun a => a % 256

/-- A freshly discovered host device: qiprog_new_device zeroes the
structure; the endpoint sizes of the reference device are 64, the residual
buffer is empty. -/
def devFresh : Device :=
  { addr := { start := 0, end_ := 0, pread := 0, pwrite := 0 }
    priv := { ep_size_in := 64, ep_size_out := 64, buf := [] } }

/-- The device of spec §8 scenario 4 after a set_address covering
[0, 127]. -/
def devW : Device := (set_address devFresh true 0 127).2

/-- State after the scenario's first call read_bulk(where 0, n 15). -/
def devAfterFirst : Device := (read chipMock devW 0 15).dev

/-- Device-side module state with remaining = 1: active window has
pread = end = 5, all four tasks IDLE, max_tx_packet 64. -/
def sOneByte : UsbDevModule :=
  { qi_read_packet := true
    qi_write_packet := true
    qi_max_rx_packet := 64
    qi_max_tx_packet := 64
    qi_bulk_buf := true
    task_list := { tasks := List.replicate 4 dTask, task_start := 0 }
    qi_dev := some { start := 0, end_ := 5, pread := 5, pwrite := 0 } }

/-- A host device whose window is [0, 15] with pread at 0 (as left by a
set_address(0, 15)). -/
def dev16 : Device :=
  { addr := { start := 0, end_ := 15, pread := 0, pwrite := 0 }
    priv := { ep_size_in := 64, ep_size_out := 64, buf := [] } }

/-- Length of the set_erase_size payload: each of the num_sizes entries
contributes 1 type byte plus the 4 bytes of h_to_le32. -/
theorem erase_payload_length (t s : List Nat) :
    ∀ n, (erase_payload t s n).length = 5 * n
  | 0 => rfl
  | n + 1 => by
    simp [erase_payload, erase_payload_length t s n, h_to_le32]
    omega

/-! ## Claims -/

/-- Claim C1.  The 32-bit put operation does NOT store all four bytes of
its argument: `h_to_le32` declares its value parameter `uint16_t`, so
`put_u32(0xDEADBEEF)` stores [0xEF, 0xBE, 0x00, 0x00] instead of the
claimed [0xEF, 0xBE, 0xAD, 0xDE], and `get_u32(put_u32(0xDEADBEEF))`
returns 0xBEEF, not 0xDEADBEEF.  The 16-bit round trip does hold at this
value. -/
theorem C1_put_u32_truncated :
    h_to_le32 0xDEADBEEF = [0xEF, 0xBE, 0x00, 0x00] ∧
    le32_to_h (h_to_le32 0xDEADBEEF) = 0xBEEF ∧
    le32_to_h (h_to_le32 0xDEADBEEF) ≠ 0xDEADBEEF ∧
    le16_to_h (h_to_le16 0xBEEF) = 0xBEEF := by decide

/-- Claim C2.  The device-side packer and the host-side unpacker disagree
on the offset of max_direct_data: unpacking the spec §8 capability bytes
(max_direct_data 0x40 at offset 6) and repacking them on the device side
puts 0x40 at offset 4 and 0 at offset 6, so the round trip fails on a
defined field. -/
theorem C2_capabilities_pack_offset :
    (get_capabilities_unpack capsBytes).max_direct_data = 0x40 ∧
    ((qiprog_pack_capabilities_dev (get_capabilities_unpack capsBytes)
      (List.replicate 64 0)).take 32).getD 4 0 = 0x40 ∧
    ((qiprog_pack_capabilities_dev (get_capabilities_unpack capsBytes)
      (List.replicate 64 0)).take 32).getD 6 0 = 0 ∧
    capsBytes.getD 6 0 = 0x40 ∧
    (qiprog_pack_capabilities_dev (get_capabilities_unpack capsBytes)
      (List.replicate 64 0)).take 32 ≠ capsBytes := by decide

/-- Claim C3.  qiprog_change_device with a device already selected (id 0)
installs the new device (id 1) and calls its dev_open, but never invokes
any close callback on the previous device: the call trace is exactly
[opened 1]. -/
theorem C3_change_device_no_close :
    (qiprog_change_device { qi_dev := some 0 } 1).2 = [DevEvent.opened 1] ∧
    DevEvent.closed 0 ∉ (qiprog_change_device { qi_dev := some 0 } 1).2 ∧
    (qiprog_change_device { qi_dev := some 0 } 1).1.qi_dev = some 1 := by decide

/-- Claim C4, counterexample.  With pread = where = 0, end = 15 and
n = 16, the claimed condition (pread ≠ where or end < where + n − 1) is
false, yet read issues a set_address — and the window it requests is
(0, 16), not (0, 15). -/
theorem C4_cex_window_off_by_one :
    ¬ (dev16.addr.pread ≠ 0 ∨ dev16.addr.end_ < 0 + 16 - 1) ∧
    (read chipMock dev16 0 16).saCalls = [(0, 16)] := by decide

/-- Claim C4, amended.  read issues a set_address control transfer exactly
when pread ≠ where or end < (where + n) mod 2^32, and the requested window
is then (where, (where + n) mod 2^32). -/
theorem C4_set_address_condition (chip : Nat → Nat) (dev : Device) (w n : Nat) :
    (read chip dev w n).saCalls =
      if dev.addr.pread ≠ w ∨ dev.addr.end_ < u32 (w + n) then
        [(w, u32 (w + n))]
      else [] := by
  have h : (read chip dev w n).saCalls = (read_start dev w n).2 := rfl
  by_cases hc : dev.addr.pread ≠ w ∨ dev.addr.end_ < u32 (w + n)
  · rw [h]; unfold read_start; rw [if_pos hc, if_pos hc]
  · rw [h]; unfold read_start; rw [if_neg hc, if_neg hc]

/-- Claim C5.  qiprog_handle_events with exactly one byte remaining in the
active window (pread = end = 5, remaining = end − pread + 1 = 1), the bulk
buffer installed and a free task available, returns with the state
completely unchanged: no task is filled or marked READY_SEND, because the
code returns when `start == end` rather than when the remaining count is
zero. -/
theorem C5_one_byte_never_enqueued :
    qiprog_handle_events sOneByte chipMock true = sOneByte ∧
    sOneByte.qi_dev.map (fun a => u32sub (a.end_ + 1) a.pread) = some 1 ∧
    get_free_task_idx sOneByte.task_list = some 0 ∧
    sOneByte.qi_bulk_buf = true := by decide

/-- Claim C6, counterexample.  After read_bulk(where 0, n 15) inside a
[0, 127] window leaves 49 residual bytes and pread = 64, the follow-up
read_bulk(where 0, n 32) of the claim DOES issue a set_address (requesting
(0, 32)) because pread ≠ 0, and it delivers bytes [0..32) of the new
window, not [15..47). -/
theorem C6_cex_followup_at_zero :
    devAfterFirst.priv.buf.length = 49 ∧
    devAfterFirst.addr.pread = 64 ∧
    (read chipMock devAfterFirst 0 32).saCalls = [(0, 32)] ∧
    (read chipMock devAfterFirst 0 32).delivered = List.range 32 := by decide

/-- Claim C6, amended.  When read_bulk continues at the current pread
(where = pread), the window still covers where + n, the request is within
range + residual, and 0 < n < |residual|, then no set_address is issued,
no bulk transfer is submitted, the call succeeds, and it delivers the
first n residual bytes (keeping the rest).  In the §8 scenario (ep_in 64,
first read of 15 bytes in a [0, 127] window leaving 49 residual bytes and
pread = 64), the follow-up read_bulk(where 64, n 32) therefore delivers
exactly the chip bytes of addresses [15..47). -/
theorem C6_residual_continuation (chip : Nat → Nat) (dev : Device) (w n : Nat)
    (h1 : dev.addr.pread = w)
    (h2 : ¬ dev.addr.end_ < u32 (w + n))
    (h3 : n ≤ u32sub (dev.addr.end_ + 1) dev.addr.pread + dev.priv.buf.length)
    (h4 : 0 < n) (h5 : n < dev.priv.buf.length) :
    (read chip dev w n).saCalls = [] ∧
    (read chip dev w n).err = QIPROG_SUCCESS ∧
    (read chip dev w n).bulkReads = 0 ∧
    (read chip dev w n).delivered = dev.priv.buf.take n ∧
    (read chip dev w n).dev.priv.buf = dev.priv.buf.drop n ∧
    (read chipMock devAfterFirst 64 32).delivered
      = (List.range 32).map (fun i => 15 + i) := by
  have hcond : ¬ (dev.addr.pread ≠ w ∨ dev.addr.end_ < u32 (w + n)) :=
    fun hc => hc.elim (fun hne => hne h1) h2
  have hrs : read_start dev w n = (dev, []) := by
    unfold read_start; rw [if_neg hcond]
  have hmin : min n dev.priv.buf.length = n := Nat.min_eq_left (le_of_lt h5)
  have hdrop : dev.priv.buf.drop n ≠ [] := by
    intro hnil
    have := List.drop_eq_nil_iff.mp hnil
    omega
  have hcore : read_core chip dev n =
      { err := QIPROG_SUCCESS, delivered := dev.priv.buf.take n,
        dev := { dev with priv := { dev.priv with buf := dev.priv.buf.drop n } },
        bulkReads := 0 } := by
    unfold read_core
    rw [if_neg (not_lt.mpr h3), hmin]
    rw [if_pos ⟨Nat.pos_iff_ne_zero.mp h4, hdrop⟩]
  have key : read_core chip (read_start dev w n).1 n =
      { err := QIPROG_SUCCESS, delivered := dev.priv.buf.take n,
        dev := { dev with priv := { dev.priv with buf := dev.priv.buf.drop n } },
        bulkReads := 0 } := by
    rw [hrs]; exact hcore
  refine ⟨?_, ?_, ?_, ?_, ?_, by decide⟩
  · show (read_start dev w n).2 = []
    rw [hrs]
  · show (read_core chip (read_start dev w n).1 n).err = QIPROG_SUCCESS
    rw [key]
  · show (read_core chip (read_start dev w n).1 n).bulkReads = 0
    rw [key]
  · show (read_core chip (read_start dev w n).1 n).delivered = dev.priv.buf.take n
    rw [key]
  · show (read_core chip (read_start dev w n).1 n).dev.priv.buf = dev.priv.buf.drop n
    rw [key]

/-- Claim C6, witness: the amended theorem applied to the §8 scenario
state (pread = 64, 49 residual bytes, window [0, 127], n = 32). -/
theorem C6_residual_continuation_witness :
    (read chipMock devAfterFirst 64 32).saCalls = [] ∧
    (read chipMock devAfterFirst 64 32).err = QIPROG_SUCCESS ∧
    (read chipMock devAfterFirst 64 32).bulkReads = 0 ∧
    (read chipMock devAfterFirst 64 32).delivered = devAfterFirst.priv.buf.take 32 ∧
    (read chipMock devAfterFirst 64 32).dev.priv.buf = devAfterFirst.priv.buf.drop 32 ∧
    (read chipMock devAfterFirst 64 32).delivered
      = (List.range 32).map (fun i => 15 + i) :=
  C6_residual_continuation chipMock devAfterFirst 64 32
    (by decide) (by decide) (by decide) (by decide) (by decide)

/-- Claim C7.  After a successful set_address(s, e), the address cursor
satisfies start = pread = pwrite = s and end = e, and the residual buffer
is empty. -/
theorem C7_set_address_resets (dev : Device) (ok : Bool) (s e : Nat)
    (h : (set_address dev ok s e).1 = QIPROG_SUCCESS) :
    (set_address dev ok s e).2.addr.start = s ∧
    (set_address dev ok s e).2.addr.pread = s ∧
    (set_address dev ok s e).2.addr.pwrite = s ∧
    (set_address dev ok s e).2.addr.end_ = e ∧
    (set_address dev ok s e).2.priv.buf = [] := by
  cases ok with
  | false => simp [set_address, QIPROG_ERR, QIPROG_SUCCESS] at h
  | true => exact ⟨rfl, rfl, rfl, rfl, rfl⟩

/-- Claim C7, witness: set_address(3, 9) succeeding on a fresh device. -/
theorem C7_set_address_resets_witness :
    (set_address devFresh true 3 9).2.addr.start = 3 ∧
    (set_address devFresh true 3 9).2.addr.pread = 3 ∧
    (set_address devFresh true 3 9).2.addr.pwrite = 3 ∧
    (set_address devFresh true 3 9).2.addr.end_ = 9 ∧
    (set_address devFresh true 3 9).2.priv.buf = [] :=
  C7_set_address_resets devFresh true 3 9 (by decide)

/-- Claim C8, counterexample.  set_erase_size with num_sizes = 13 returns
QIPROG_ERR_LARGE_ARG, the too-large-argument error, which is not
QIPROG_ERR_ARG (−3). -/
theorem C8_cex_large_arg :
    set_erase_size [1] [4096] 13 = (QIPROG_ERR_LARGE_ARG, none) ∧
    QIPROG_ERR_LARGE_ARG ≠ QIPROG_ERR_ARG := by decide

/-- Claim C8, amended.  set_erase_size with num_sizes = 0 returns
QIPROG_ERR_ARG and with num_sizes = 13 returns QIPROG_ERR_LARGE_ARG, both
without issuing any control transfer; for 1 ≤ num_sizes ≤ 12 it issues the
control transfer whose payload is 5·num_sizes bytes. -/
theorem C8_bounds_checks (types sizes : List Nat) (n : Nat)
    (h1 : 1 ≤ n) (h2 : n ≤ 12) :
    set_erase_size types sizes 0 = (QIPROG_ERR_ARG, none) ∧
    set_erase_size types sizes 13 = (QIPROG_ERR_LARGE_ARG, none) ∧
    set_erase_size types sizes n =
      (QIPROG_SUCCESS, some (erase_payload types sizes n)) ∧
    (erase_payload types sizes n).length = 5 * n := by
  refine ⟨rfl, rfl, ?_, erase_payload_length types sizes n⟩
  unfold set_erase_size
  rw [if_neg (by omega), if_neg (by omega)]

/-- Claim C8, witness: the amended theorem at num_sizes = 12. -/
theorem C8_bounds_checks_witness :
    set_erase_size [1] [4096] 0 = (QIPROG_ERR_ARG, none) ∧
    set_erase_size [1] [4096] 13 = (QIPROG_ERR_LARGE_ARG, none) ∧
    set_erase_size [1] [4096] 12 =
      (QIPROG_SUCCESS, some (erase_payload [1] [4096] 12)) ∧
    (erase_payload [1] [4096] 12).length = 5 * 12 :=
  C8_bounds_checks [1] [4096] 12 (by decide) (by decide)

/-- Claim C9.  When, after the possible set_address window re-set, the
request exceeds the bytes remaining in the window plus the residual
(n > (end + 1 − pread) + |residual|, uint32 arithmetic), read returns
QIPROG_ERR_ARG having submitted no bulk transfer, delivered nothing, and
left the device state (residual included) exactly as the window step left
it. -/
theorem C9_too_large_read_rejected (chip : Nat → Nat) (dev : Device) (w n : Nat)
    (h : n > u32sub ((read_start dev w n).1.addr.end_ + 1)
        (read_start dev w n).1.addr.pread + (read_start dev w n).1.priv.buf.length) :
    (read chip dev w n).err = QIPROG_ERR_ARG ∧
    (read chip dev w n).delivered = [] ∧
    (read chip dev w n).bulkReads = 0 ∧
    (read chip dev w n).dev = (read_start dev w n).1 := by
  have hcore : read_core chip (read_start dev w n).1 n =
      { err := QIPROG_ERR_ARG, delivered := [], dev := (read_start dev w n).1,
        bulkReads := 0 } := by
    unfold read_core
    rw [if_pos h]
  exact ⟨by show (read_core chip (read_start dev w n).1 n).err = _; rw [hcore],
    by show (read_core chip (read_start dev w n).1 n).delivered = _; rw [hcore],
    by show (read_core chip (read_start dev w n).1 n).bulkReads = _; rw [hcore],
    by show (read_core chip (read_start dev w n).1 n).dev = _; rw [hcore]⟩

/-- Claim C9, witness: where = n = 0xFFFFFFFF on a fresh device makes the
re-set window wrap, leaving 0 bytes in range, so the oversized request is
rejected with QIPROG_ERR_ARG. -/
theorem C9_too_large_read_rejected_witness :
    (read chipMock devFresh 4294967295 4294967295).err = QIPROG_ERR_ARG ∧
    (read chipMock devFresh 4294967295 4294967295).delivered = [] ∧
    (read chipMock devFresh 4294967295 4294967295).bulkReads = 0 ∧
    (read chipMock devFresh 4294967295 4294967295).dev =
      (read_start devFresh 4294967295 4294967295).1 :=
  C9_too_large_read_rejected chipMock devFresh 4294967295 4294967295 (by decide)

/-- Claim C10.  Before a successful qiprog_usb_dev_init the module's bulk
buffer pointer is NULL — the static initial state has it NULL and an init
call with a missing callback, a zero packet size, or a NULL buffer returns
QIPROG_ERR_ARG with the state untouched — and qiprog_handle_events on any
state with a NULL bulk buffer returns that state unchanged. -/
theorem C10_uninit_noop (s : UsbDevModule) (chip : Nat → Nat) (sendOk : Bool)
    (send recv : Bool) (mrx mtx : Nat) (bufArg : Bool)
    (h1 : s.qi_bulk_buf = false)
    (h2 : send = false ∨ recv = false ∨ mrx = 0 ∨ mtx = 0 ∨ bufArg = false) :
    qiprog_handle_events s chip sendOk = s ∧
    qiprog_usb_dev_init s send recv mrx mtx bufArg = (QIPROG_ERR_ARG, s) ∧
    init_module_state.qi_bulk_buf = false := by
  refine ⟨?_, ?_, rfl⟩
  · unfold qiprog_handle_events
    rw [if_pos h1]
  · unfold qiprog_usb_dev_init
    rw [if_pos h2]

/-- Claim C10, witness: the pristine module state and an init call with
every argument invalid. -/
theorem C10_uninit_noop_witness :
    qiprog_handle_events init_module_state chipMock true = init_module_state ∧
    qiprog_usb_dev_init init_module_state false false 0 0 false =
      (QIPROG_ERR_ARG, init_module_state) ∧
    init_module_state.qi_bulk_buf = false :=
  C10_uninit_noop init_module_state chipMock true false false 0 0 false
    (by decide) (by decide)
